import Mathlib

/-!
Verification of `azure-extensions-cli` (src/main.go) against its
natural-language specification.

The embedding mirrors `main.go`: each CLI command becomes a Lean function
from a flag context (`String → String`, with `""` meaning "flag not set",
exactly as Go's `cli.Context.String` returns `""` for unset flags) and a
`Server` behaviour (the responses of the `ExtensionsClient` facade) to a
trace of client-call events plus an outcome (`ok` or `fatal`, the latter
standing for `log.Fatal*`, which terminates the process).

The `ExtensionsClient` itself (`NewClient`, `ListVersions`,
`GetReplicationStatus`, `UpdateExtension`, `DeleteExtension`,
`WaitForOperation`) is not part of `src/`; where a claim is decided by that
missing code (the operation poller), the relevant definitions are modelled
from the spec and marked as such in their doc comments.
-/

namespace AzExtCli

/-- Result of running a command action: `ok` with the produced value, or
`fatal msg` standing for Go's `log.Fatal`/`log.Fatalf`, which logs and
exits the process immediately (nothing after it runs). -/
inductive Outcome (α : Type) where
  | ok (a : α)
  | fatal (msg : String)
deriving Repr, DecidableEq

/-- Whether an outcome is a fatal abort. -/
def Outcome.isFatal {α : Type} : Outcome α → Bool
  | .ok _ => false
  | .fatal _ => true

/-- A network call issued through the `ExtensionsClient` facade. Each
constructor is one facade method that performs at least one HTTP request
(`WaitForOperation` polls the status endpoint). Reading the certificate
file and writing to stdout are not network events and are not traced. -/
inductive Event where
  | listVersionsReq
  | replicationStatusReq (ns nm ver : String)
  | updateExtensionReq (manifest : String)
  | deleteExtensionReq (ns nm ver : String)
  | waitForOperationReq (op : String)
deriving Repr, DecidableEq

/-- Whether the event is a `WaitForOperation` call (the operation poller). -/
def Event.isWait : Event → Bool
  | .waitForOperationReq _ => true
  | _ => false

/-- `ExtensionVersionInfo`: one row of the list-versions response
(fields `Ns`, `Name`, `Version`, `ReplicationCompleted`, `Regions`). -/
structure ExtensionVersionInfo where
  ns : String
  name : String
  version : String
  replicationCompleted : Bool
  regions : String
deriving Repr, DecidableEq

/-- `ReplicationStatusEntry`: one row of the replication-status response
(fields `Location`, `Status`). -/
structure ReplicationStatusEntry where
  location : String
  status : String
deriving Repr, DecidableEq

/-- Behaviour of the environment the commands run against: the certificate
file contents (`ioutil.ReadFile`), client construction (`NewClient`), and
the response of each `ExtensionsClient` method. `Except.error` is any
error return. Per the spec (§4.1) client construction issues no network
request; every facade method call does. -/
structure Server where
  certContents : String → Except String String
  newClient : String → String → Except String Unit
  listVersionsResp : Except String (List ExtensionVersionInfo)
  replicationStatusResp : String → String → String → Except String (List ReplicationStatusEntry)
  updateExtensionResp : String → Except String String
  deleteExtensionResp : String → String → String → Except String String
  waitForOperationResp : String → Except String Unit

/-- `checkFlag` (main.go:256): reads the flag; if it is the empty string,
`log.Fatalf("argument %s must be provided", fl)`, otherwise returns it. -/
def checkFlag (ctx : String → String) (fl : String) : Except String String :=
  let v := ctx fl
  if v = "" then .error ("argument " ++ fl ++ " must be provided") else .ok v

/-- `mkClient` (main.go:244): reads the certificate file
(`ioutil.ReadFile`), fatal on read error, then `NewClient(subscriptionID,
b)`, fatal on construction error. No network request is issued. -/
def mkClient (srv : Server) (subscriptionID certFile : String) : Outcome Unit :=
  match srv.certContents certFile with
  | .error e => .fatal ("Cannot read certificate " ++ certFile ++ ": " ++ e)
  | .ok b =>
    match srv.newClient subscriptionID b with
    | .error e => .fatal ("Cannot create client: " ++ e)
    | .ok _ => .ok ()

/-- Go's `fmt.Sprintf("%v", b)` on a `bool`. -/
def boolString (b : Bool) : String := if b then "true" else "false"

/-- The row-building loop of `listVersions` (main.go:162-165):
`data := [][]string{}; for _, e := range v.Extensions { data = append(data, row e) }`.
Embedded as the fold it is, not as a `map`. -/
def buildRows {α : Type} (f : α → List String) (xs : List α) : List (List String) :=
  xs.foldl (fun data e => data ++ [f e]) []

/-- The table row rendered for one `ExtensionVersionInfo` (main.go:164). -/
def versionRow (e : ExtensionVersionInfo) : List String :=
  [e.ns, e.name, e.version, boolString e.replicationCompleted, e.regions]

/-- The table row rendered for one `ReplicationStatusEntry` (main.go:182). -/
def statusRow (s : ReplicationStatusEntry) : List String :=
  [s.location, s.status]

/-- `listVersions` (main.go:154): `mkClient(checkFlag(subscription-id),
checkFlag(subscription-cert))` (Go evaluates the two `checkFlag` calls
left to right before `mkClient` runs), then `cl.ListVersions()`, fatal on
error, else render the rows in response order. Returns the trace of
network events and the rendered rows. -/
def listVersionsCmd (srv : Server) (ctx : String → String) :
    List Event × Outcome (List (List String)) :=
  match checkFlag ctx "subscription-id" with
  | .error m => ([], .fatal m)
  | .ok sid =>
    match checkFlag ctx "subscription-cert" with
    | .error m => ([], .fatal m)
    | .ok cert =>
      match mkClient srv sid cert with
      | .fatal m => ([], .fatal m)
      | .ok _ =>
        match srv.listVersionsResp with
        | .error _ => ([.listVersionsReq], .fatal "Request failed")
        | .ok exts => ([.listVersionsReq], .ok (buildRows versionRow exts))

/-- `replicationStatus` (main.go:170): `mkClient(checkFlag(subscription-id),
checkFlag(subscription-cert))`, then `checkFlag` on namespace, name,
version (left to right), then `cl.GetReplicationStatus(ns, name, version)`,
fatal on error, else render the rows in response order. -/
def replicationStatusCmd (srv : Server) (ctx : String → String) :
    List Event × Outcome (List (List String)) :=
  match checkFlag ctx "subscription-id" with
  | .error m => ([], .fatal m)
  | .ok sid =>
    match checkFlag ctx "subscription-cert" with
    | .error m => ([], .fatal m)
    | .ok cert =>
      match mkClient srv sid cert with
      | .fatal m => ([], .fatal m)
      | .ok _ =>
        match checkFlag ctx "namespace" with
        | .error m => ([], .fatal m)
        | .ok ns =>
          match checkFlag ctx "name" with
          | .error m => ([], .fatal m)
          | .ok nm =>
            match checkFlag ctx "version" with
            | .error m => ([], .fatal m)
            | .ok ver =>
              match srv.replicationStatusResp ns nm ver with
              | .error _ => ([.replicationStatusReq ns nm ver], .fatal "Cannot fetch replication status")
              | .ok sts => ([.replicationStatusReq ns nm ver], .ok (buildRows statusRow sts))

/-- The fixed text of the unpublish manifest template (main.go:196-204)
before the first interpolation: XML declaration, `ExtensionImage` root
element open tag, and the warning comment, ending with the indentation of
the first element. -/
def unpublishHeader : String :=
  "<?xml version=\"1.0\" encoding=\"utf-8\" ?>\n<ExtensionImage xmlns=\"http://schemas.microsoft.com/windowsazure\"  xmlns:i=\"http://www.w3.org/2001/XMLSchema-instance\">\n  <!-- WARNING: Ordering of fields matter in this file. -->\n  "

/-- The fixed text closing the unpublish manifest template (main.go:204). -/
def unpublishFooter : String := "\n</ExtensionImage>"

/-- The unpublish manifest as rendered by `text/template` on the fixed
template of main.go:196-204 with the struct `p` of main.go:189-194:
literal text with `p.Namespace`, `p.Name`, `p.Version` substituted
verbatim where the template actions stand. -/
def unpublishManifestXml (ns nm ver : String) : String :=
  unpublishHeader ++
  "<ProviderNameSpace>" ++ ns ++ "</ProviderNameSpace>" ++ "\n  " ++
  "<Type>" ++ nm ++ "</Type>" ++ "\n  " ++
  "<Version>" ++ ver ++ "</Version>" ++ "\n  " ++
  "<IsInternalExtension>true</IsInternalExtension>" ++ "\n  " ++
  "<IsJsonExtension>true</IsJsonExtension>" ++
  unpublishFooter

/-- `unpublishVersion` (main.go:188): `checkFlag` on namespace, name,
version (struct literal fields evaluate in source order), render the
unpublish manifest, `mkClient(checkFlag(subscription-id),
checkFlag(subscription-cert))`, `cl.UpdateExtension(manifest)` (fatal on
error), then `cl.WaitForOperation(op)` on the returned operation id
(fatal on error). -/
def unpublishVersionCmd (srv : Server) (ctx : String → String) :
    List Event × Outcome Unit :=
  match checkFlag ctx "namespace" with
  | .error m => ([], .fatal m)
  | .ok ns =>
    match checkFlag ctx "name" with
    | .error m => ([], .fatal m)
    | .ok nm =>
      match checkFlag ctx "version" with
      | .error m => ([], .fatal m)
      | .ok ver =>
        let manifest := unpublishManifestXml ns nm ver
        match checkFlag ctx "subscription-id" with
        | .error m => ([], .fatal m)
        | .ok sid =>
          match checkFlag ctx "subscription-cert" with
          | .error m => ([], .fatal m)
          | .ok cert =>
            match mkClient srv sid cert with
            | .fatal m => ([], .fatal m)
            | .ok _ =>
              match srv.updateExtensionResp manifest with
              | .error _ => ([.updateExtensionReq manifest], .fatal "UpdateExtension failed")
              | .ok op =>
                match srv.waitForOperationResp op with
                | .error _ =>
                    ([.updateExtensionReq manifest, .waitForOperationReq op],
                     .fatal "UpdateExtension failed")
                | .ok _ =>
                    ([.updateExtensionReq manifest, .waitForOperationReq op], .ok ())

/-- `deleteVersion` (main.go:228): `mkClient(checkFlag(subscription-id),
checkFlag(subscription-cert))`, `checkFlag` on namespace, name, version,
`cl.DeleteExtension(ns, name, version)` (fatal on error), then
`cl.WaitForOperation(op)` on the returned operation id (fatal on error). -/
def deleteVersionCmd (srv : Server) (ctx : String → String) :
    List Event × Outcome Unit :=
  match checkFlag ctx "subscription-id" with
  | .error m => ([], .fatal m)
  | .ok sid =>
    match checkFlag ctx "subscription-cert" with
    | .error m => ([], .fatal m)
    | .ok cert =>
      match mkClient srv sid cert with
      | .fatal m => ([], .fatal m)
      | .ok _ =>
        match checkFlag ctx "namespace" with
        | .error m => ([], .fatal m)
        | .ok ns =>
          match checkFlag ctx "name" with
          | .error m => ([], .fatal m)
          | .ok nm =>
            match checkFlag ctx "version" with
            | .error m => ([], .fatal m)
            | .ok ver =>
              match srv.deleteExtensionResp ns nm ver with
              | .error _ => ([.deleteExtensionReq ns nm ver], .fatal "Error deleting version")
              | .ok op =>
                match srv.waitForOperationResp op with
                | .error _ =>
                    ([.deleteExtensionReq ns nm ver, .waitForOperationReq op],
                     .fatal "DeleteExtension failed")
                | .ok _ =>
                    ([.deleteExtensionReq ns nm ver, .waitForOperationReq op], .ok ())

/-- The parameter struct `p` of `newExtensionManifest` (main.go:102-104). -/
structure ManifestParams where
  ns : String
  name : String
  version : String
  label : String
  description : String
  eula : String
  privacy : String
  homepage : String
  company : String
  os : String
deriving Repr, DecidableEq

/-- The manifest as rendered by `text/template` on the fixed template of
main.go:125-144 with the struct `p`: literal text with the ten fields
substituted verbatim where the template actions stand. The `MediaLink`
value, the `REGIONS` comment and both boolean elements are literal text
of the template, independent of the input. -/
def newManifestXml (p : ManifestParams) : String :=
  "<?xml version=\"1.0\" encoding=\"utf-8\" ?>\n<ExtensionImage xmlns=\"http://schemas.microsoft.com/windowsazure\"  xmlns:i=\"http://www.w3.org/2001/XMLSchema-instance\">\n  <!-- WARNING: Ordering of fields matter in this file. -->\n  <ProviderNameSpace>" ++ p.ns ++
  "</ProviderNameSpace>\n  <Type>" ++ p.name ++
  "</Type>\n  <Version>" ++ p.version ++
  "</Version>\n  <Label>" ++ p.label ++
  "</Label>\n  <HostingResources>VmRole</HostingResources>\n  " ++
  "<MediaLink>%BLOB_URL%</MediaLink>" ++
  "\n  <Description>" ++ p.description ++
  "</Description>\n  " ++
  "<IsInternalExtension>true</IsInternalExtension>" ++
  "\n  <Eula>" ++ p.eula ++
  "</Eula>\n  <PrivacyUri>" ++ p.privacy ++
  "</PrivacyUri>\n  <HomepageUri>" ++ p.homepage ++
  "</HomepageUri>\n  <IsJsonExtension>true</IsJsonExtension>\n  <CompanyName>" ++ p.company ++
  "</CompanyName>\n  <SupportedOS>" ++ p.os ++
  "</SupportedOS>\n  " ++
  "<!--%REGIONS%-->" ++
  "\n</ExtensionImage>\n"

/-- The ten flags `newExtensionManifest` reads, in the order of its
`flags` table (main.go:105-119). -/
def manifestFlagNames : List String :=
  ["namespace", "name", "version", "label", "description",
   "eula-url", "privacy-url", "homepage-url", "company", "supported-os"]

/-- `newExtensionManifest` (main.go:101): `checkFlag` on each of the ten
flags in table order (the loop at main.go:120-122; the first empty flag
is fatal), then render the manifest template to stdout. `ok s` means the
full manifest `s` was written; `fatal` means the process exited before
writing anything. -/
def newExtensionManifestCmd (ctx : String → String) : Outcome String :=
  match checkFlag ctx "namespace" with
  | .error m => .fatal m
  | .ok ns =>
    match checkFlag ctx "name" with
    | .error m => .fatal m
    | .ok nm =>
      match checkFlag ctx "version" with
      | .error m => .fatal m
      | .ok ver =>
        match checkFlag ctx "label" with
        | .error m => .fatal m
        | .ok lbl =>
          match checkFlag ctx "description" with
          | .error m => .fatal m
          | .ok desc =>
            match checkFlag ctx "eula-url" with
            | .error m => .fatal m
            | .ok eula =>
              match checkFlag ctx "privacy-url" with
              | .error m => .fatal m
              | .ok priv =>
                match checkFlag ctx "homepage-url" with
                | .error m => .fatal m
                | .ok home =>
                  match checkFlag ctx "company" with
                  | .error m => .fatal m
                  | .ok comp =>
                    match checkFlag ctx "supported-os" with
                    | .error m => .fatal m
                    | .ok os =>
                      .ok (newManifestXml
                        { ns := ns, name := nm, version := ver, label := lbl,
                          description := desc, eula := eula, privacy := priv,
                          homepage := home, company := comp, os := os })

/-! ### Operation poller

The `ExtensionsClient`'s poller implementation is not part of `src/`
(only its caller `WaitForOperation` call sites are); the definitions
below are modelled from the spec (§4.3, §5). -/

/-- Modelled from the spec: the status a single operation-status query
reports (`InProgress` | `Succeeded` | `Failed` with the server-supplied
error code/message); §3 "Operation". The poller implementation reporting
these statuses is not in `src/`. -/
inductive OpStatus where
  | inProgress
  | succeeded
  | failed (code msg : String)
deriving Repr, DecidableEq

/-- A status from which no further transition occurs (§3, Glossary). -/
def OpStatus.isTerminal : OpStatus → Bool
  | .inProgress => false
  | .succeeded => true
  | .failed _ _ => true

/-- Modelled from the spec: the terminal result of `wait` (§4.3: the
terminal states `Succeeded`, `Failed`, `TimedOut`, `Cancelled`). -/
inductive WaitResult where
  | succeeded
  | failed (code msg : String)
  | timedOut
  | cancelled
deriving Repr, DecidableEq

/-- The terminal result corresponding to a terminal status observation.
(`inProgress` is mapped to `timedOut` for totality; it is never reached
under the terminal-status hypotheses of the theorems using this.) -/
def statusResult : OpStatus → WaitResult
  | .succeeded => .succeeded
  | .failed c m => .failed c m
  | .inProgress => .timedOut

/-- Modelled from the spec: the poller's configuration (§4.3, §5) —
deadline on the whole loop, poll interval, and per-request transport
timeout, in abstract time units. -/
structure PollConfig where
  deadline : Nat
  interval : Nat
  reqTimeout : Nat
deriving Repr, DecidableEq

/-- Modelled from the spec: the environment one `wait` call runs
against. `query k` is the status the `k`-th status query reports,
`queryTime k` how long that query takes before the transport timeout is
applied, `cancelSignal k` whether the caller's cancellation signal is
observed at the top of iteration `k` (§4.3, §5). -/
structure StatusSource where
  query : Nat → OpStatus
  queryTime : Nat → Nat
  cancelSignal : Nat → Bool

/-- Modelled from the spec: one `wait` loop (§4.3). At the top of each
iteration the cancellation signal is checked, then the deadline — before
the query, "not only after sleeping" — then a status query is issued
(bounded by the request timeout); a terminal status returns immediately,
`InProgress` sleeps one poll interval and repeats. `fuel` bounds the
recursion; `none` means fuel ran out (shown impossible for the fuel
`wait` passes whenever the interval is positive). Arguments after fuel:
the next query index `k` and the elapsed time `t`; the result carries
the terminal result, the finish time, and the number of queries issued. -/
def waitAux (cfg : PollConfig) (src : StatusSource) :
    Nat → Nat → Nat → Option (WaitResult × Nat × Nat)
  | 0, _, _ => none
  | fuel + 1, k, t =>
    if src.cancelSignal k then some (.cancelled, t, k)
    else if cfg.deadline ≤ t then some (.timedOut, t, k)
    else
      let qt := min (src.queryTime k) cfg.reqTimeout
      match src.query k with
      | .succeeded => some (.succeeded, t + qt, k + 1)
      | .failed c m => some (.failed c m, t + qt, k + 1)
      | .inProgress => waitAux cfg src fuel (k + 1) (t + qt + cfg.interval)

/-- Modelled from the spec: `wait(operationID, deadline, cancelSignal)`
(§4.3). Starts the loop at query index 0 and elapsed time 0, with enough
fuel for every iteration the deadline admits when the interval is
positive. -/
def wait (cfg : PollConfig) (src : StatusSource) : Option (WaitResult × Nat × Nat) :=
  waitAux cfg src (cfg.deadline + 1) 0 0

/-- A `wait` call whose queries resume against the same server operation
`n` queries later: the `j`-th query of the new call observes the status
the original source reports at index `n + j`. The new call has its own
cancellation signal. -/
def shiftSource (src : StatusSource) (n : Nat) (cancel2 : Nat → Bool) : StatusSource :=
  { query := fun j => src.query (n + j)
    queryTime := fun j => src.queryTime (n + j)
    cancelSignal := cancel2 }

/-- The error message `checkFlag` produces is the `InvalidArgument`
classification of the spec (§7): it always reads
`argument <flag> must be provided`. No other fatal message of `main.go`
starts with `argument `. -/
def isInvalidArgumentMsg (m : String) : Bool :=
  decide (m.data.take 9 = "argument ".data)

/-- Whether an outcome is the `InvalidArgument` failure of the spec's
taxonomy (§7): a fatal exit whose message is `checkFlag`'s. -/
def Outcome.isInvalidArgument {α : Type} : Outcome α → Bool
  | .ok _ => false
  | .fatal m => isInvalidArgumentMsg m

/-- The five required flags a client-backed command may read. -/
def anyRequiredFlagEmpty (ctx : String → String) : Prop :=
  ctx "subscription-id" = "" ∨ ctx "subscription-cert" = "" ∨
  ctx "namespace" = "" ∨ ctx "name" = "" ∨ ctx "version" = ""

/-- One element of the unpublish manifest body: `<tag>content</tag>`. -/
def xmlElement (tag content : String) : String :=
  "<" ++ tag ++ ">" ++ content ++ "</" ++ tag ++ ">"

/-- The manifest body elements joined on their own indented lines, as the
template lays them out. -/
def joinElements : List (String × String) → String
  | [] => ""
  | [e] => xmlElement e.1 e.2
  | e :: rest => xmlElement e.1 e.2 ++ "\n  " ++ joinElements rest

/-- The element sequence of the unpublish manifest body: the
namespace/name/version triple verbatim, and the two boolean elements
fixed to the literal `true`. -/
def unpublishElements (ns nm ver : String) : List (String × String) :=
  [("ProviderNameSpace", ns), ("Type", nm), ("Version", ver),
   ("IsInternalExtension", "true"), ("IsJsonExtension", "true")]

/-! ### Concrete fixtures used by the witness theorems -/

/-- A flag context with every flag set (to distinct non-empty values). -/
def ctxAll : String → String := fun fl =>
  if fl = "subscription-id" then "subs-1"
  else if fl = "subscription-cert" then "cert.pem"
  else if fl = "namespace" then "Microsoft.Azure.Extensions"
  else if fl = "name" then "FooExtension"
  else if fl = "version" then "1.0.0"
  else "meta"

/-- A flag context whose `namespace` flag is empty and whose other flags
are set. -/
def ctxNoNamespace : String → String := fun fl =>
  if fl = "namespace" then "" else ctxAll fl

/-- A flag context with no flag set at all. -/
def ctxEmpty : String → String := fun _ => ""

/-- A flag context whose `label` flag is empty and whose other flags are
set. -/
def ctxNoLabel : String → String := fun fl =>
  if fl = "label" then "" else ctxAll fl

/-- A server on which every call succeeds; the list and status responses
arrive in the order `[B, A]` (not sorted). -/
def srvOK : Server :=
  { certContents := fun _ => .ok "PEM-BYTES"
    newClient := fun _ _ => .ok ()
    listVersionsResp := .ok
      [{ ns := "Microsoft.Azure.Extensions", name := "B", version := "2.0",
         replicationCompleted := false, regions := "eastus" },
       { ns := "Microsoft.Azure.Extensions", name := "A", version := "1.0",
         replicationCompleted := true, regions := "westus" }]
    replicationStatusResp := fun _ _ _ => .ok
      [{ location := "B-region", status := "Replicating" },
       { location := "A-region", status := "Completed" }]
    updateExtensionResp := fun _ => .ok "op-123"
    deleteExtensionResp := fun _ _ _ => .ok "op-456"
    waitForOperationResp := fun _ => .ok () }

/-- A server whose certificate file cannot be read. -/
def srvNoCert : Server :=
  { srvOK with certContents := fun _ => .error "open cert.pem: no such file" }

/-- A status source every query of which reports `InProgress` and whose
cancellation signal never fires. -/
def srcInProgress : StatusSource :=
  { query := fun _ => .inProgress
    queryTime := fun _ => 2
    cancelSignal := fun _ => false }

/-- A status source every query of which reports `Succeeded` (an
operation that reached its terminal state and never regresses). -/
def srcDone : StatusSource :=
  { query := fun _ => .succeeded
    queryTime := fun _ => 7
    cancelSignal := fun _ => false }

/-! ## Helper lemmas -/

/-- `checkFlag` on an empty flag value is the `InvalidArgument` error. -/
theorem checkFlag_empty {ctx : String → String} {fl : String} (h : ctx fl = "") :
    checkFlag ctx fl = .error ("argument " ++ fl ++ " must be provided") := by
  simp [checkFlag, h]

/-- `checkFlag` on a non-empty flag value returns that value. -/
theorem checkFlag_nonempty {ctx : String → String} {fl : String} (h : ctx fl ≠ "") :
    checkFlag ctx fl = .ok (ctx fl) := by
  simp [checkFlag, h]

/-- The row-building fold appends in iteration order: it is `map`. -/
theorem buildRows_eq_map {α : Type} (f : α → List String) (xs : List α) :
    buildRows f xs = xs.map f := by
  suffices h : ∀ acc : List (List String),
      xs.foldl (fun data e => data ++ [f e]) acc = acc ++ xs.map f by
    simpa [buildRows] using h []
  induction xs with
  | nil => intro acc; simp
  | cons x xs ih => intro acc; simp [List.foldl_cons, ih]

/-- With positive poll interval, the fuel `wait` supplies never runs out:
the loop always reaches a result. -/
theorem waitAux_isSome (cfg : PollConfig) (src : StatusSource)
    (hint : 1 ≤ cfg.interval) :
    ∀ fuel k t, cfg.deadline - t < fuel → (waitAux cfg src fuel k t).isSome := by
  intro fuel
  induction fuel with
  | zero => intro k t h; omega
  | succ f ih =>
    intro k t h
    unfold waitAux
    by_cases hc : src.cancelSignal k
    · simp [hc]
    · by_cases hd : cfg.deadline ≤ t
      · simp [hc, hd]
      · cases hq : src.query k with
        | succeeded => simp [hc, hd, hq]
        | failed c m => simp [hc, hd, hq]
        | inProgress =>
          simp only [hc, hd, hq, Bool.false_eq_true, if_false, if_neg, not_false_iff]
          apply ih
          omega

/-- Whenever the loop reaches a result, the finish time is bounded by
deadline + request timeout + poll interval (given that bound held of the
entry time). -/
theorem waitAux_finish_le (cfg : PollConfig) (src : StatusSource) :
    ∀ fuel k t r tf q, t ≤ cfg.deadline + cfg.reqTimeout + cfg.interval →
      waitAux cfg src fuel k t = some (r, tf, q) →
      tf ≤ cfg.deadline + cfg.reqTimeout + cfg.interval := by
  intro fuel
  induction fuel with
  | zero => intro k t r tf q _ heq; simp [waitAux] at heq
  | succ f ih =>
    intro k t r tf q hb heq
    unfold waitAux at heq
    by_cases hc : src.cancelSignal k
    · simp [hc] at heq
      omega
    · by_cases hd : cfg.deadline ≤ t
      · simp [hc, hd] at heq
        omega
      · have hqt : min (src.queryTime k) cfg.reqTimeout ≤ cfg.reqTimeout :=
          Nat.min_le_right _ _
        cases hq : src.query k with
        | succeeded =>
          simp [hc, hd, hq] at heq
          omega
        | failed c m =>
          simp [hc, hd, hq] at heq
          omega
        | inProgress =>
          simp only [hc, hd, hq, Bool.false_eq_true, if_false, if_neg, not_false_iff] at heq
          exact ih _ _ _ _ _ (by omega) heq

/-! ## Claim theorems -/

/-- C4: for every configured deadline, `wait` terminates and returns a
terminal result within `deadline + one poll interval + one request
timeout` of being invoked, for every status source — in particular even
when every status query reports `InProgress` indefinitely the polling
loop never blocks forever. -/
theorem wait_terminates_within_bound (cfg : PollConfig) (src : StatusSource)
    (hint : 1 ≤ cfg.interval) :
    ∃ r tf q, wait cfg src = some (r, tf, q) ∧
      tf ≤ cfg.deadline + cfg.interval + cfg.reqTimeout := by
  have h1 : (waitAux cfg src (cfg.deadline + 1) 0 0).isSome :=
    waitAux_isSome cfg src hint (cfg.deadline + 1) 0 0 (by omega)
  obtain ⟨⟨r, tf, q⟩, hr⟩ := Option.isSome_iff_exists.mp h1
  refine ⟨r, tf, q, hr, ?_⟩
  have h2 := waitAux_finish_le cfg src (cfg.deadline + 1) 0 0 r tf q (by omega) hr
  omega

/-- C4 witness: deadline 3, interval 1, request timeout 2, against a
source that reports `InProgress` forever; `wait` returns within
3 + 1 + 2 time units. -/
theorem wait_terminates_within_bound_witness :
    1 ≤ (PollConfig.mk 3 1 2).interval ∧
    ∃ r tf q, wait (PollConfig.mk 3 1 2) srcInProgress = some (r, tf, q) ∧
      tf ≤ (PollConfig.mk 3 1 2).deadline + (PollConfig.mk 3 1 2).interval +
        (PollConfig.mk 3 1 2).reqTimeout :=
  ⟨by decide, wait_terminates_within_bound (PollConfig.mk 3 1 2) srcInProgress (by decide)⟩

/-- C5: once a terminal status has been observed at query `k0` of an
operation that never regresses from a terminal state, any later `wait`
call on the same operation id (its queries resuming at index `n ≥ k0`,
cancellation not raised, a positive deadline) returns the same terminal
result after exactly one confirming status query — it never re-enters
the polling loop. -/
theorem wait_idempotent_after_terminal (cfg2 : PollConfig) (src : StatusSource)
    (cancel2 : Nat → Bool) (k0 n : Nat)
    (hterm : (src.query k0).isTerminal = true)
    (hmono : ∀ i j, i ≤ j → (src.query i).isTerminal = true → src.query j = src.query i)
    (hn : k0 ≤ n) (hcancel : cancel2 0 = false) (hdl : 1 ≤ cfg2.deadline) :
    wait cfg2 (shiftSource src n cancel2) =
      some (statusResult (src.query k0), min (src.queryTime n) cfg2.reqTimeout, 1) := by
  have hq : src.query n = src.query k0 := hmono k0 n hn hterm
  unfold wait
  obtain ⟨d, hd⟩ : ∃ d, cfg2.deadline = d + 1 := ⟨cfg2.deadline - 1, by omega⟩
  rw [hd]
  unfold waitAux
  simp only [shiftSource, hcancel, Bool.false_eq_true, if_false, Nat.add_zero, hq]
  have hnd : ¬(d + 1 ≤ 0) := by omega
  rw [if_neg (by rw [hd]; omega)]
  cases hs : src.query k0 with
  | inProgress => rw [hs] at hterm; simp [OpStatus.isTerminal] at hterm
  | succeeded => simp [statusResult]
  | failed c m => simp [statusResult]

/-- C5 witness: an operation already `Succeeded` at query 0; a second
`wait` resuming at query index 3 with deadline 5, interval 1, request
timeout 2 returns `Succeeded` after exactly one query. -/
theorem wait_idempotent_after_terminal_witness :
    (srcDone.query 0).isTerminal = true ∧
    wait (PollConfig.mk 5 1 2) (shiftSource srcDone 3 fun _ => false) =
      some (statusResult (srcDone.query 0), min (srcDone.queryTime 3) 2, 1) :=
  ⟨by decide,
   wait_idempotent_after_terminal (PollConfig.mk 5 1 2) srcDone (fun _ => false) 0 3
     (by decide) (fun i j _ _ => rfl) (by decide) (by decide) (by decide)⟩

/-- C7: `list-versions` and `replication-status` are synchronous: on
every input each issues at most a single request/response and never
invokes the operation poller — no `WaitForOperation` call appears in
either trace. -/
theorem syncCmds_never_poll (srv : Server) (ctx : String → String) :
    ((listVersionsCmd srv ctx).1.all fun e => !e.isWait) = true ∧
    (listVersionsCmd srv ctx).1.length ≤ 1 ∧
    ((replicationStatusCmd srv ctx).1.all fun e => !e.isWait) = true ∧
    (replicationStatusCmd srv ctx).1.length ≤ 1 := by
  unfold listVersionsCmd replicationStatusCmd
  refine ⟨?_, ?_, ?_, ?_⟩ <;> (repeat' split) <;> simp [Event.isWait]

/-- C2: the rendered rows of `list-versions` and `replication-status`
preserve the server response order element for element (the row list is
the `map` of the response list, never sorted or reordered). -/
theorem syncCmds_preserve_server_order (srv : Server) (ctx : String → String)
    (exts : List ExtensionVersionInfo) (sts : List ReplicationStatusEntry)
    (hsid : ctx "subscription-id" ≠ "") (hcert : ctx "subscription-cert" ≠ "")
    (hns : ctx "namespace" ≠ "") (hnm : ctx "name" ≠ "") (hver : ctx "version" ≠ "")
    (hcl : mkClient srv (ctx "subscription-id") (ctx "subscription-cert") = .ok ())
    (hl : srv.listVersionsResp = .ok exts)
    (hr : srv.replicationStatusResp (ctx "namespace") (ctx "name") (ctx "version") = .ok sts) :
    (listVersionsCmd srv ctx).2 = .ok (exts.map versionRow) ∧
    (replicationStatusCmd srv ctx).2 = .ok (sts.map statusRow) := by
  constructor
  · simp [listVersionsCmd, checkFlag_nonempty hsid, checkFlag_nonempty hcert,
      hcl, hl, buildRows_eq_map]
  · simp [replicationStatusCmd, checkFlag_nonempty hsid, checkFlag_nonempty hcert,
      checkFlag_nonempty hns, checkFlag_nonempty hnm, checkFlag_nonempty hver,
      hcl, hr, buildRows_eq_map]

/-- C2 witness: a server answering in order `[B, A]` yields rows in order
`[B, A]` for both commands, never resorted. -/
theorem syncCmds_preserve_server_order_witness :
    (listVersionsCmd srvOK ctxAll).2 = .ok
      [["Microsoft.Azure.Extensions", "B", "2.0", "false", "eastus"],
       ["Microsoft.Azure.Extensions", "A", "1.0", "true", "westus"]] ∧
    (replicationStatusCmd srvOK ctxAll).2 = .ok
      [["B-region", "Replicating"], ["A-region", "Completed"]] := by
  have h := syncCmds_preserve_server_order srvOK ctxAll
    [{ ns := "Microsoft.Azure.Extensions", name := "B", version := "2.0",
       replicationCompleted := false, regions := "eastus" },
     { ns := "Microsoft.Azure.Extensions", name := "A", version := "1.0",
       replicationCompleted := true, regions := "westus" }]
    [{ location := "B-region", status := "Replicating" },
     { location := "A-region", status := "Completed" }]
    (by decide) (by decide) (by decide) (by decide) (by decide) rfl rfl rfl
  simpa [versionRow, statusRow, boolString] using h

/-- C3: `unpublish-version` goes through the generic update operation:
every network event of its trace is either the `UpdateExtension`
submission of the rendered unpublish manifest or the follow-up
`WaitForOperation` (there is no dedicated unpublish call), and whenever
the command reaches the network at all, the first call is that
`UpdateExtension` submission. -/
theorem unpublish_via_generic_update (srv : Server) (ctx : String → String) :
    (∀ e ∈ (unpublishVersionCmd srv ctx).1,
        e = .updateExtensionReq
            (unpublishManifestXml (ctx "namespace") (ctx "name") (ctx "version")) ∨
        e.isWait = true) ∧
    (ctx "namespace" ≠ "" → ctx "name" ≠ "" → ctx "version" ≠ "" →
      ctx "subscription-id" ≠ "" → ctx "subscription-cert" ≠ "" →
      mkClient srv (ctx "subscription-id") (ctx "subscription-cert") = .ok () →
      ∃ rest, (unpublishVersionCmd srv ctx).1 =
        .updateExtensionReq
          (unpublishManifestXml (ctx "namespace") (ctx "name") (ctx "version")) :: rest) := by
  by_cases h1 : ctx "namespace" = ""
  · exact ⟨fun e he => by simp [unpublishVersionCmd, checkFlag_empty h1] at he,
      fun hn _ _ _ _ _ => absurd h1 hn⟩
  by_cases h2 : ctx "name" = ""
  · exact ⟨fun e he => by
      simp [unpublishVersionCmd, checkFlag_nonempty h1, checkFlag_empty h2] at he,
      fun _ hn _ _ _ _ => absurd h2 hn⟩
  by_cases h3 : ctx "version" = ""
  · exact ⟨fun e he => by
      simp [unpublishVersionCmd, checkFlag_nonempty h1, checkFlag_nonempty h2,
        checkFlag_empty h3] at he,
      fun _ _ hn _ _ _ => absurd h3 hn⟩
  by_cases h4 : ctx "subscription-id" = ""
  · exact ⟨fun e he => by
      simp [unpublishVersionCmd, checkFlag_nonempty h1, checkFlag_nonempty h2,
        checkFlag_nonempty h3, checkFlag_empty h4] at he,
      fun _ _ _ hn _ _ => absurd h4 hn⟩
  by_cases h5 : ctx "subscription-cert" = ""
  · exact ⟨fun e he => by
      simp [unpublishVersionCmd, checkFlag_nonempty h1, checkFlag_nonempty h2,
        checkFlag_nonempty h3, checkFlag_nonempty h4, checkFlag_empty h5] at he,
      fun _ _ _ _ hn _ => absurd h5 hn⟩
  cases hcl : mkClient srv (ctx "subscription-id") (ctx "subscription-cert") with
  | fatal m =>
    refine ⟨fun e he => by
      simp [unpublishVersionCmd, checkFlag_nonempty h1, checkFlag_nonempty h2,
        checkFlag_nonempty h3, checkFlag_nonempty h4, checkFlag_nonempty h5, hcl] at he,
      fun _ _ _ _ _ hok => absurd hok (by simp)⟩
  | ok u =>
    cases u
    cases hup : srv.updateExtensionResp
        (unpublishManifestXml (ctx "namespace") (ctx "name") (ctx "version")) with
    | error e0 =>
      constructor
      · intro e he
        simp [unpublishVersionCmd, checkFlag_nonempty h1, checkFlag_nonempty h2,
          checkFlag_nonempty h3, checkFlag_nonempty h4, checkFlag_nonempty h5,
          hcl, hup] at he
        exact Or.inl he
      · intro _ _ _ _ _ _
        exact ⟨[], by
          simp [unpublishVersionCmd, checkFlag_nonempty h1, checkFlag_nonempty h2,
            checkFlag_nonempty h3, checkFlag_nonempty h4, checkFlag_nonempty h5,
            hcl, hup]⟩
    | ok op =>
      cases hw : srv.waitForOperationResp op with
      | error e0 =>
        constructor
        · intro e he
          simp [unpublishVersionCmd, checkFlag_nonempty h1, checkFlag_nonempty h2,
            checkFlag_nonempty h3, checkFlag_nonempty h4, checkFlag_nonempty h5,
            hcl, hup, hw] at he
          rcases he with rfl | rfl
          · exact Or.inl rfl
          · exact Or.inr rfl
        · intro _ _ _ _ _ _
          exact ⟨[.waitForOperationReq op], by
            simp [unpublishVersionCmd, checkFlag_nonempty h1, checkFlag_nonempty h2,
              checkFlag_nonempty h3, checkFlag_nonempty h4, checkFlag_nonempty h5,
              hcl, hup, hw]⟩
      | ok u2 =>
        cases u2
        constructor
        · intro e he
          simp [unpublishVersionCmd, checkFlag_nonempty h1, checkFlag_nonempty h2,
            checkFlag_nonempty h3, checkFlag_nonempty h4, checkFlag_nonempty h5,
            hcl, hup, hw] at he
          rcases he with rfl | rfl
          · exact Or.inl rfl
          · exact Or.inr rfl
        · intro _ _ _ _ _ _
          exact ⟨[.waitForOperationReq op], by
            simp [unpublishVersionCmd, checkFlag_nonempty h1, checkFlag_nonempty h2,
              checkFlag_nonempty h3, checkFlag_nonempty h4, checkFlag_nonempty h5,
              hcl, hup, hw]⟩

/-- C3 witness: on a succeeding server with all flags set, every traced
event of `unpublish-version` is the generic update (with the rendered
unpublish manifest) or the wait, and the first network call is that
update. -/
theorem unpublish_via_generic_update_witness :
    (∀ e ∈ (unpublishVersionCmd srvOK ctxAll).1,
        e = .updateExtensionReq
            (unpublishManifestXml (ctxAll "namespace") (ctxAll "name") (ctxAll "version")) ∨
        e.isWait = true) ∧
    (∃ rest, (unpublishVersionCmd srvOK ctxAll).1 =
        .updateExtensionReq
          (unpublishManifestXml (ctxAll "namespace") (ctxAll "name") (ctxAll "version")) :: rest) := by
  have h := unpublish_via_generic_update srvOK ctxAll
  exact ⟨h.1, h.2 (by decide) (by decide) (by decide) (by decide) (by decide) rfl⟩

/-- C6: for every successful mutating call, the returned operation id is
passed unchanged to exactly one subsequent `WaitForOperation` call: the
wait events of the `unpublish-version` (resp. `delete-version`) trace
are exactly `[waitForOperationReq op]` for the very `op` that
`UpdateExtension` (resp. `DeleteExtension`) returned. -/
theorem opId_forwarded_to_single_wait (srv : Server) (ctx : String → String)
    (op op2 : String)
    (h1 : ctx "namespace" ≠ "") (h2 : ctx "name" ≠ "") (h3 : ctx "version" ≠ "")
    (h4 : ctx "subscription-id" ≠ "") (h5 : ctx "subscription-cert" ≠ "")
    (hcl : mkClient srv (ctx "subscription-id") (ctx "subscription-cert") = .ok ())
    (hup : srv.updateExtensionResp
      (unpublishManifestXml (ctx "namespace") (ctx "name") (ctx "version")) = .ok op)
    (hdel : srv.deleteExtensionResp (ctx "namespace") (ctx "name") (ctx "version") = .ok op2) :
    (unpublishVersionCmd srv ctx).1.filter Event.isWait = [.waitForOperationReq op] ∧
    (deleteVersionCmd srv ctx).1.filter Event.isWait = [.waitForOperationReq op2] := by
  constructor
  · cases hw : srv.waitForOperationResp op with
    | error e0 =>
      simp [unpublishVersionCmd, checkFlag_nonempty h1, checkFlag_nonempty h2,
        checkFlag_nonempty h3, checkFlag_nonempty h4, checkFlag_nonempty h5,
        hcl, hup, hw, List.filter, Event.isWait]
    | ok u =>
      cases u
      simp [unpublishVersionCmd, checkFlag_nonempty h1, checkFlag_nonempty h2,
        checkFlag_nonempty h3, checkFlag_nonempty h4, checkFlag_nonempty h5,
        hcl, hup, hw, List.filter, Event.isWait]
  · cases hw : srv.waitForOperationResp op2 with
    | error e0 =>
      simp [deleteVersionCmd, checkFlag_nonempty h1, checkFlag_nonempty h2,
        checkFlag_nonempty h3, checkFlag_nonempty h4, checkFlag_nonempty h5,
        hcl, hdel, hw, List.filter, Event.isWait]
    | ok u =>
      cases u
      simp [deleteVersionCmd, checkFlag_nonempty h1, checkFlag_nonempty h2,
        checkFlag_nonempty h3, checkFlag_nonempty h4, checkFlag_nonempty h5,
        hcl, hdel, hw, List.filter, Event.isWait]

/-- C6 witness: on the succeeding server, the unpublish trace waits on
exactly `op-123` (the id `UpdateExtension` returned) and the delete
trace waits on exactly `op-456` (the id `DeleteExtension` returned). -/
theorem opId_forwarded_to_single_wait_witness :
    (unpublishVersionCmd srvOK ctxAll).1.filter Event.isWait =
      [.waitForOperationReq "op-123"] ∧
    (deleteVersionCmd srvOK ctxAll).1.filter Event.isWait =
      [.waitForOperationReq "op-456"] :=
  opId_forwarded_to_single_wait srvOK ctxAll "op-123" "op-456"
    (by decide) (by decide) (by decide) (by decide) (by decide) rfl rfl rfl

/-- C1 counterexample: with an empty `namespace` flag but an unreadable
certificate file, `replication-status` reads the certificate before it
checks `namespace` (main.go:171-172), so the invocation aborts with the
certificate error, not with `InvalidArgument` — refuting "the operation
fails with InvalidArgument" as stated. No network request is issued. -/
theorem emptyArg_not_always_invalidArgument :
    ctxNoNamespace "namespace" = "" ∧
    (replicationStatusCmd srvNoCert ctxNoNamespace).1 = [] ∧
    (replicationStatusCmd srvNoCert ctxNoNamespace).2.isFatal = true ∧
    (replicationStatusCmd srvNoCert ctxNoNamespace).2.isInvalidArgument = false := by
  decide

/-- C1 (amended): a client-backed invocation with an empty required flag
always aborts before any network request (the trace is empty). For
`list-versions` and `unpublish-version` every required-flag check runs
before the client is constructed, so the failure is always
`InvalidArgument`; for `replication-status` and `delete-version` the
namespace/name/version checks run after certificate loading and client
construction, so the `InvalidArgument` failure is guaranteed whenever
client construction succeeds (otherwise the invocation still aborts,
with the construction error). -/
theorem clientCmds_empty_arg_fail_before_network (srv : Server) (ctx : String → String) :
    ((ctx "subscription-id" = "" ∨ ctx "subscription-cert" = "") →
      (listVersionsCmd srv ctx).1 = [] ∧
      (listVersionsCmd srv ctx).2.isInvalidArgument = true) ∧
    (anyRequiredFlagEmpty ctx →
      (unpublishVersionCmd srv ctx).1 = [] ∧
      (unpublishVersionCmd srv ctx).2.isInvalidArgument = true) ∧
    (anyRequiredFlagEmpty ctx →
      (replicationStatusCmd srv ctx).1 = [] ∧
      (replicationStatusCmd srv ctx).2.isFatal = true ∧
      (mkClient srv (ctx "subscription-id") (ctx "subscription-cert") = .ok () →
        (replicationStatusCmd srv ctx).2.isInvalidArgument = true)) ∧
    (anyRequiredFlagEmpty ctx →
      (deleteVersionCmd srv ctx).1 = [] ∧
      (deleteVersionCmd srv ctx).2.isFatal = true ∧
      (mkClient srv (ctx "subscription-id") (ctx "subscription-cert") = .ok () →
        (deleteVersionCmd srv ctx).2.isInvalidArgument = true)) := by
  refine ⟨?_, ?_, ?_, ?_⟩
  · -- list-versions
    intro h
    by_cases h1 : ctx "subscription-id" = ""
    · refine ⟨by simp [listVersionsCmd, checkFlag_empty h1], ?_⟩
      simp only [listVersionsCmd, checkFlag_empty h1]
      decide
    · have h2 : ctx "subscription-cert" = "" := by tauto
      refine ⟨by simp [listVersionsCmd, checkFlag_nonempty h1, checkFlag_empty h2], ?_⟩
      simp only [listVersionsCmd, checkFlag_nonempty h1, checkFlag_empty h2]
      decide
  · -- unpublish-version
    intro h
    have h' : ctx "subscription-id" = "" ∨ ctx "subscription-cert" = "" ∨
        ctx "namespace" = "" ∨ ctx "name" = "" ∨ ctx "version" = "" := h
    by_cases h1 : ctx "namespace" = ""
    · refine ⟨by simp [unpublishVersionCmd, checkFlag_empty h1], ?_⟩
      simp only [unpublishVersionCmd, checkFlag_empty h1]
      decide
    by_cases h2 : ctx "name" = ""
    · refine ⟨by simp [unpublishVersionCmd, checkFlag_nonempty h1, checkFlag_empty h2], ?_⟩
      simp only [unpublishVersionCmd, checkFlag_nonempty h1, checkFlag_empty h2]
      decide
    by_cases h3 : ctx "version" = ""
    · refine ⟨by simp [unpublishVersionCmd, checkFlag_nonempty h1, checkFlag_nonempty h2,
        checkFlag_empty h3], ?_⟩
      simp only [unpublishVersionCmd, checkFlag_nonempty h1, checkFlag_nonempty h2,
        checkFlag_empty h3]
      decide
    by_cases h4 : ctx "subscription-id" = ""
    · refine ⟨by simp [unpublishVersionCmd, checkFlag_nonempty h1, checkFlag_nonempty h2,
        checkFlag_nonempty h3, checkFlag_empty h4], ?_⟩
      simp only [unpublishVersionCmd, checkFlag_nonempty h1, checkFlag_nonempty h2,
        checkFlag_nonempty h3, checkFlag_empty h4]
      decide
    by_cases h5 : ctx "subscription-cert" = ""
    · refine ⟨by simp [unpublishVersionCmd, checkFlag_nonempty h1, checkFlag_nonempty h2,
        checkFlag_nonempty h3, checkFlag_nonempty h4, checkFlag_empty h5], ?_⟩
      simp only [unpublishVersionCmd, checkFlag_nonempty h1, checkFlag_nonempty h2,
        checkFlag_nonempty h3, checkFlag_nonempty h4, checkFlag_empty h5]
      decide
    · tauto
  · -- replication-status
    intro h
    have h' : ctx "subscription-id" = "" ∨ ctx "subscription-cert" = "" ∨
        ctx "namespace" = "" ∨ ctx "name" = "" ∨ ctx "version" = "" := h
    by_cases h1 : ctx "subscription-id" = ""
    · refine ⟨by simp [replicationStatusCmd, checkFlag_empty h1], ?_, fun _ => ?_⟩ <;>
      · simp only [replicationStatusCmd, checkFlag_empty h1]
        decide
    by_cases h2 : ctx "subscription-cert" = ""
    · refine ⟨by simp [replicationStatusCmd, checkFlag_nonempty h1, checkFlag_empty h2],
        ?_, fun _ => ?_⟩ <;>
      · simp only [replicationStatusCmd, checkFlag_nonempty h1, checkFlag_empty h2]
        decide
    cases hm : mkClient srv (ctx "subscription-id") (ctx "subscription-cert") with
    | fatal m =>
      refine ⟨by simp [replicationStatusCmd, checkFlag_nonempty h1, checkFlag_nonempty h2, hm],
        by simp [replicationStatusCmd, checkFlag_nonempty h1, checkFlag_nonempty h2, hm,
          Outcome.isFatal],
        fun hok => absurd hok (by simp)⟩
    | ok u =>
      cases u
      by_cases h3 : ctx "namespace" = ""
      · refine ⟨by simp [replicationStatusCmd, checkFlag_nonempty h1, checkFlag_nonempty h2,
          hm, checkFlag_empty h3], ?_, fun _ => ?_⟩ <;>
        · simp only [replicationStatusCmd, checkFlag_nonempty h1, checkFlag_nonempty h2,
            hm, checkFlag_empty h3]
          decide
      by_cases h4 : ctx "name" = ""
      · refine ⟨by simp [replicationStatusCmd, checkFlag_nonempty h1, checkFlag_nonempty h2,
          hm, checkFlag_nonempty h3, checkFlag_empty h4], ?_, fun _ => ?_⟩ <;>
        · simp only [replicationStatusCmd, checkFlag_nonempty h1, checkFlag_nonempty h2,
            hm, checkFlag_nonempty h3, checkFlag_empty h4]
          decide
      by_cases h5 : ctx "version" = ""
      · refine ⟨by simp [replicationStatusCmd, checkFlag_nonempty h1, checkFlag_nonempty h2,
          hm, checkFlag_nonempty h3, checkFlag_nonempty h4, checkFlag_empty h5],
          ?_, fun _ => ?_⟩ <;>
        · simp only [replicationStatusCmd, checkFlag_nonempty h1, checkFlag_nonempty h2,
            hm, checkFlag_nonempty h3, checkFlag_nonempty h4, checkFlag_empty h5]
          decide
      · tauto
  · -- delete-version
    intro h
    have h' : ctx "subscription-id" = "" ∨ ctx "subscription-cert" = "" ∨
        ctx "namespace" = "" ∨ ctx "name" = "" ∨ ctx "version" = "" := h
    by_cases h1 : ctx "subscription-id" = ""
    · refine ⟨by simp [deleteVersionCmd, checkFlag_empty h1], ?_, fun _ => ?_⟩ <;>
      · simp only [deleteVersionCmd, checkFlag_empty h1]
        decide
    by_cases h2 : ctx "subscription-cert" = ""
    · refine ⟨by simp [deleteVersionCmd, checkFlag_nonempty h1, checkFlag_empty h2],
        ?_, fun _ => ?_⟩ <;>
      · simp only [deleteVersionCmd, checkFlag_nonempty h1, checkFlag_empty h2]
        decide
    cases hm : mkClient srv (ctx "subscription-id") (ctx "subscription-cert") with
    | fatal m =>
      refine ⟨by simp [deleteVersionCmd, checkFlag_nonempty h1, checkFlag_nonempty h2, hm],
        by simp [deleteVersionCmd, checkFlag_nonempty h1, checkFlag_nonempty h2, hm,
          Outcome.isFatal],
        fun hok => absurd hok (by simp)⟩
    | ok u =>
      cases u
      by_cases h3 : ctx "namespace" = ""
      · refine ⟨by simp [deleteVersionCmd, checkFlag_nonempty h1, checkFlag_nonempty h2,
          hm, checkFlag_empty h3], ?_, fun _ => ?_⟩ <;>
        · simp only [deleteVersionCmd, checkFlag_nonempty h1, checkFlag_nonempty h2,
            hm, checkFlag_empty h3]
          decide
      by_cases h4 : ctx "name" = ""
      · refine ⟨by simp [deleteVersionCmd, checkFlag_nonempty h1, checkFlag_nonempty h2,
          hm, checkFlag_nonempty h3, checkFlag_empty h4], ?_, fun _ => ?_⟩ <;>
        · simp only [deleteVersionCmd, checkFlag_nonempty h1, checkFlag_nonempty h2,
            hm, checkFlag_nonempty h3, checkFlag_empty h4]
          decide
      by_cases h5 : ctx "version" = ""
      · refine ⟨by simp [deleteVersionCmd, checkFlag_nonempty h1, checkFlag_nonempty h2,
          hm, checkFlag_nonempty h3, checkFlag_nonempty h4, checkFlag_empty h5],
          ?_, fun _ => ?_⟩ <;>
        · simp only [deleteVersionCmd, checkFlag_nonempty h1, checkFlag_nonempty h2,
            hm, checkFlag_nonempty h3, checkFlag_nonempty h4, checkFlag_empty h5]
          decide
      · tauto

/-- C1 witness: with every flag empty, all four client-backed commands
abort with `InvalidArgument` and issue zero network requests. -/
theorem clientCmds_empty_arg_fail_before_network_witness :
    ((listVersionsCmd srvOK ctxEmpty).1 = [] ∧
      (listVersionsCmd srvOK ctxEmpty).2.isInvalidArgument = true) ∧
    ((unpublishVersionCmd srvOK ctxEmpty).1 = [] ∧
      (unpublishVersionCmd srvOK ctxEmpty).2.isInvalidArgument = true) ∧
    ((replicationStatusCmd srvOK ctxEmpty).1 = [] ∧
      (replicationStatusCmd srvOK ctxEmpty).2.isFatal = true) ∧
    ((deleteVersionCmd srvOK ctxEmpty).1 = [] ∧
      (deleteVersionCmd srvOK ctxEmpty).2.isFatal = true) := by
  have h := clientCmds_empty_arg_fail_before_network srvOK ctxEmpty
  have he : anyRequiredFlagEmpty ctxEmpty := Or.inl rfl
  exact ⟨h.1 (Or.inl rfl), h.2.1 he,
    ⟨(h.2.2.1 he).1, (h.2.2.1 he).2.1⟩, ⟨(h.2.2.2 he).1, (h.2.2.2 he).2.1⟩⟩

/-- C9: `new-extension-manifest` treats all ten of its string flags as
required: if any one is empty, the command aborts (the first empty flag
in table order is fatal) before writing any output, so a partially
populated manifest is never emitted. -/
theorem newManifest_requires_all_ten_flags (ctx : String → String)
    (h : ∃ fl ∈ manifestFlagNames, ctx fl = "") :
    (newExtensionManifestCmd ctx).isFatal = true := by
  obtain ⟨fl, hmem, hempty⟩ := h
  unfold newExtensionManifestCmd
  repeat' split
  all_goals try rfl
  exfalso
  simp only [manifestFlagNames, List.mem_cons, List.not_mem_nil, or_false] at hmem
  rcases hmem with rfl | rfl | rfl | rfl | rfl | rfl | rfl | rfl | rfl | rfl <;>
    simp_all [checkFlag]

/-- C9 witness: with only the descriptive `label` flag empty (a
metadata flag), the command still aborts without output. -/
theorem newManifest_requires_all_ten_flags_witness :
    (∃ fl ∈ manifestFlagNames, ctxNoLabel fl = "") ∧
    (newExtensionManifestCmd ctxNoLabel).isFatal = true :=
  ⟨⟨"label", by decide, rfl⟩,
   newManifest_requires_all_ten_flags ctxNoLabel ⟨"label", by decide, rfl⟩⟩

set_option maxRecDepth 8000 in
/-- C8: the unpublish manifest body consists of exactly the elements
`ProviderNameSpace`, `Type`, `Version`, `IsInternalExtension` and
`IsJsonExtension`, in that order, with the namespace/name/version triple
interpolated verbatim and both boolean elements fixed to the literal
`true` — no other manifest fields appear. -/
theorem unpublishManifest_elements_exact (ns nm ver : String) :
    unpublishManifestXml ns nm ver =
      unpublishHeader ++ joinElements (unpublishElements ns nm ver) ++ unpublishFooter := by
  apply String.ext
  simp [unpublishManifestXml, unpublishElements, joinElements, xmlElement,
    unpublishHeader, unpublishFooter, String.data_append]

set_option maxRecDepth 16000 in
set_option maxHeartbeats 3200000 in
/-- C10: for every input, the generated manifest carries the literal
placeholder `%BLOB_URL%` as its `MediaLink` value, the literal comment
`<!--%REGIONS%-->`, and `IsInternalExtension` fixed to `true`: it is
always a template requiring later substitution. -/
theorem newManifest_is_incomplete_template (p : ManifestParams) :
    (∃ a b, newManifestXml p = a ++ "<MediaLink>%BLOB_URL%</MediaLink>" ++ b) ∧
    (∃ a b, newManifestXml p = a ++ "<!--%REGIONS%-->" ++ b) ∧
    (∃ a b, newManifestXml p = a ++ "<IsInternalExtension>true</IsInternalExtension>" ++ b) := by
  refine ⟨⟨"<?xml version=\"1.0\" encoding=\"utf-8\" ?>\n<ExtensionImage xmlns=\"http://schemas.microsoft.com/windowsazure\"  xmlns:i=\"http://www.w3.org/2001/XMLSchema-instance\">\n  <!-- WARNING: Ordering of fields matter in this file. -->\n  <ProviderNameSpace>" ++ p.ns ++
      "</ProviderNameSpace>\n  <Type>" ++ p.name ++
      "</Type>\n  <Version>" ++ p.version ++
      "</Version>\n  <Label>" ++ p.label ++
      "</Label>\n  <HostingResources>VmRole</HostingResources>\n  ",
      "\n  <Description>" ++ p.description ++
      "</Description>\n  <IsInternalExtension>true</IsInternalExtension>\n  <Eula>" ++ p.eula ++
      "</Eula>\n  <PrivacyUri>" ++ p.privacy ++
      "</PrivacyUri>\n  <HomepageUri>" ++ p.homepage ++
      "</HomepageUri>\n  <IsJsonExtension>true</IsJsonExtension>\n  <CompanyName>" ++ p.company ++
      "</CompanyName>\n  <SupportedOS>" ++ p.os ++
      "</SupportedOS>\n  <!--%REGIONS%-->\n</ExtensionImage>\n", ?_⟩,
    ⟨"<?xml version=\"1.0\" encoding=\"utf-8\" ?>\n<ExtensionImage xmlns=\"http://schemas.microsoft.com/windowsazure\"  xmlns:i=\"http://www.w3.org/2001/XMLSchema-instance\">\n  <!-- WARNING: Ordering of fields matter in this file. -->\n  <ProviderNameSpace>" ++ p.ns ++
      "</ProviderNameSpace>\n  <Type>" ++ p.name ++
      "</Type>\n  <Version>" ++ p.version ++
      "</Version>\n  <Label>" ++ p.label ++
      "</Label>\n  <HostingResources>VmRole</HostingResources>\n  <MediaLink>%BLOB_URL%</MediaLink>\n  <Description>" ++ p.description ++
      "</Description>\n  <IsInternalExtension>true</IsInternalExtension>\n  <Eula>" ++ p.eula ++
      "</Eula>\n  <PrivacyUri>" ++ p.privacy ++
      "</PrivacyUri>\n  <HomepageUri>" ++ p.homepage ++
      "</HomepageUri>\n  <IsJsonExtension>true</IsJsonExtension>\n  <CompanyName>" ++ p.company ++
      "</CompanyName>\n  <SupportedOS>" ++ p.os ++
      "</SupportedOS>\n  ",
      "\n</ExtensionImage>\n", ?_⟩,
    ⟨"<?xml version=\"1.0\" encoding=\"utf-8\" ?>\n<ExtensionImage xmlns=\"http://schemas.microsoft.com/windowsazure\"  xmlns:i=\"http://www.w3.org/2001/XMLSchema-instance\">\n  <!-- WARNING: Ordering of fields matter in this file. -->\n  <ProviderNameSpace>" ++ p.ns ++
      "</ProviderNameSpace>\n  <Type>" ++ p.name ++
      "</Type>\n  <Version>" ++ p.version ++
      "</Version>\n  <Label>" ++ p.label ++
      "</Label>\n  <HostingResources>VmRole</HostingResources>\n  <MediaLink>%BLOB_URL%</MediaLink>\n  <Description>" ++ p.description ++
      "</Description>\n  ",
      "\n  <Eula>" ++ p.eula ++
      "</Eula>\n  <PrivacyUri>" ++ p.privacy ++
      "</PrivacyUri>\n  <HomepageUri>" ++ p.homepage ++
      "</HomepageUri>\n  <IsJsonExtension>true</IsJsonExtension>\n  <CompanyName>" ++ p.company ++
      "</CompanyName>\n  <SupportedOS>" ++ p.os ++
      "</SupportedOS>\n  <!--%REGIONS%-->\n</ExtensionImage>\n", ?_⟩⟩ <;>
  · apply String.ext
    simp [newManifestXml, String.data_append]

end AzExtCli
